import Mathlib

/-!
Verification development for the steam-py repository: a typed client for the
Steam Web API.  The development shallowly embeds the parts of the code that the
claims speak about:

* the error taxonomy of `src/steam_py/exceptions.py`;
* Steam-ID validation `PlayerAPI._validate_steam_id` and the endpoint methods
  `get_player_summaries`, `get_friends_list`, `get_player_bans`,
  `get_player_summary` of `src/steamy_py/repos/player.py`;
* the FamilyAPI endpoint methods of `src/steamy_py/repos/family.py`;
* the request-dispatch layer (`BaseAPI._request` in `repos/base.py`), which is
  not present in the sources; it is modelled from the specification (see the
  doc comments beginning `Modelled from the spec:`).

Python exceptions are embedded as values of an explicit exception type, and a
method that can raise returns `Except`.  Every endpoint method additionally
returns the number of transport invocations it performed, so that fail-fast
properties ("zero network attempts") and retry counts are statable.  Real time
(retry delays, rate limiting) is not modelled; no claim mentions it.
-/

set_option autoImplicit false

namespace SteamPy

/-! ## Error taxonomy — `src/steam_py/exceptions.py`

Each exception class stores its message together with the `status_code` its
`__init__` passes to `super().__init__`, plus the class-specific attributes
(`steam_id`, `app_id`, `retry_after`, `raw_response`).  One record type holds
all of them, with a `kind` discriminator for the class; the constructor
functions below mirror the `__init__` of each class, including the default
messages computed when `message is None`. -/

inductive ErrKind where
  | base
  | authentication
  | rateLimit
  | playerNotFound
  | gameNotFound
  | invalidSteamID
  | invalidAppID
  | privateProfile
  | serviceUnavailable
  | configuration
  | responseParsing
  | network
  deriving DecidableEq

structure SteamErr where
  kind : ErrKind
  message : String
  status_code : Option Nat
  steam_id : Option String
  app_id : Option String
  retry_after : Option Nat
  raw_response : Option String
  deriving DecidableEq

/-- `SteamAPIError(message, status_code=None, response_data=None)` — the base
class; `response_data` (a dict) is not modelled, no claim reads it. -/
def SteamAPIError (message : String) (status_code : Option Nat) : SteamErr :=
  ⟨ErrKind.base, message, status_code, Option.none, Option.none, Option.none, Option.none⟩

/-- `AuthenticationError(message="Invalid or missing Steam API key")`:
`super().__init__(message, status_code=401)`. -/
def AuthenticationError (message : String) : SteamErr :=
  ⟨ErrKind.authentication, message, Option.some 401, Option.none, Option.none, Option.none,
   Option.none⟩

/-- `RateLimitError(message="Rate limit exceeded", retry_after=None)`:
`super().__init__(message, status_code=429)`; stores `retry_after`. -/
def RateLimitError (message : String) (retry_after : Option Nat) : SteamErr :=
  ⟨ErrKind.rateLimit, message, Option.some 429, Option.none, Option.none, retry_after,
   Option.none⟩

/-- `PlayerNotFoundError(steam_id, message=None)`: default message
`f"Player with Steam ID '{steam_id}' not found"`, `status_code=404`. -/
def PlayerNotFoundError (steam_id : String) (message : Option String) : SteamErr :=
  ⟨ErrKind.playerNotFound,
   message.getD ("Player with Steam ID '" ++ steam_id ++ "' not found"),
   Option.some 404, Option.some steam_id, Option.none, Option.none, Option.none⟩

/-- `GameNotFoundError(app_id, message=None)`: default message
`f"Game with App ID '{app_id}' not found"`, `status_code=404`. -/
def GameNotFoundError (app_id : String) (message : Option String) : SteamErr :=
  ⟨ErrKind.gameNotFound,
   message.getD ("Game with App ID '" ++ app_id ++ "' not found"),
   Option.some 404, Option.none, Option.some app_id, Option.none, Option.none⟩

/-- `InvalidSteamIDError(steam_id, message=None)`: default message
`f"Invalid Steam ID format: '{steam_id}'"`, `status_code=400`. -/
def InvalidSteamIDError (steam_id : String) (message : Option String) : SteamErr :=
  ⟨ErrKind.invalidSteamID,
   message.getD ("Invalid Steam ID format: '" ++ steam_id ++ "'"),
   Option.some 400, Option.some steam_id, Option.none, Option.none, Option.none⟩

/-- `InvalidAppIDError(app_id, message=None)`: default message
`f"Invalid App ID format: '{app_id}'"`, `status_code=400`. -/
def InvalidAppIDError (app_id : String) (message : Option String) : SteamErr :=
  ⟨ErrKind.invalidAppID,
   message.getD ("Invalid App ID format: '" ++ app_id ++ "'"),
   Option.some 400, Option.none, Option.some app_id, Option.none, Option.none⟩

/-- `PrivateProfileError(steam_id, message=None)`: default message
`f"Profile for Steam ID '{steam_id}' is private or not accessible"`,
`status_code=403`. -/
def PrivateProfileError (steam_id : String) (message : Option String) : SteamErr :=
  ⟨ErrKind.privateProfile,
   message.getD ("Profile for Steam ID '" ++ steam_id ++ "' is private or not accessible"),
   Option.some 403, Option.some steam_id, Option.none, Option.none, Option.none⟩

/-- `ServiceUnavailableError(message="Steam API service is temporarily unavailable")`:
`status_code=503`. -/
def ServiceUnavailableError (message : String) : SteamErr :=
  ⟨ErrKind.serviceUnavailable, message, Option.some 503, Option.none, Option.none, Option.none,
   Option.none⟩

/-- `ConfigurationError(message)`: no status code. -/
def ConfigurationError (message : String) : SteamErr :=
  ⟨ErrKind.configuration, message, Option.none, Option.none, Option.none, Option.none,
   Option.none⟩

/-- `ResponseParsingError(message, raw_response=None)`: no status code. -/
def ResponseParsingError (message : String) (raw_response : Option String) : SteamErr :=
  ⟨ErrKind.responseParsing, message, Option.none, Option.none, Option.none, Option.none,
   raw_response⟩

/-- `NetworkError(message, original_error=None)`: no status code
(`original_error` is not modelled, no claim reads it). -/
def NetworkError (message : String) : SteamErr :=
  ⟨ErrKind.network, message, Option.none, Option.none, Option.none, Option.none, Option.none⟩

/-- Whether an error value is an `InvalidSteamIDError`. -/
def isInvalidSteamIDErr (e : SteamErr) : Bool :=
  match e.kind with
  | ErrKind.invalidSteamID => true
  | _ => false

/-- Whether an error value is a `ResponseParsingError`. -/
def isResponseParsingErr (e : SteamErr) : Bool :=
  match e.kind with
  | ErrKind.responseParsing => true
  | _ => false

/-- A Python exception as visible to the `except` clauses that the repository
uses.  `SteamAPIError` and its subclasses are `steam e`.  `valueError` is the
built-in `ValueError` (pydantic's `ValidationError` is a subclass of it);
`otherExc` stands for any remaining exception class (`TypeError`,
`AttributeError`, ...).  In each case the stored string is `str(e)`. -/
inductive PyExc where
  | valueError (message : String)
  | otherExc (message : String)
  | steam (e : SteamErr)
  deriving DecidableEq

/-- Whether a surfaced exception is a typed Steam error (a `SteamAPIError`
instance) rather than a bare built-in exception. -/
def PyExc.isTyped : PyExc → Bool
  | PyExc.steam _ => true
  | _ => false

/-! ## Python string primitives

`str.isdigit` and `str.startswith` are modelled on the character list of the
string (digits restricted to ASCII `0`-`9`, which is what every string in the
claims and in the code's validation paths contains). -/

/-- `str.isdigit`: true iff the string is non-empty and every character is a
digit. -/
def pyIsdigit (s : String) : Bool :=
  !s.data.isEmpty && s.data.all Char.isDigit

/-- `str.startswith(pre)`. -/
def pyStartswith (s pre : String) : Bool :=
  pre.data.isPrefixOf s.data

/-- Whether `pat` occurs as a contiguous run inside `l` (helper for Python's
`pat in s` substring test). -/
def listHasInfix (pat : List Char) : List Char → Bool
  | [] => pat.isEmpty
  | c :: rest => pat.isPrefixOf (c :: rest) || listHasInfix pat rest

/-- Python's `pat in s` substring test on strings. -/
def strContains (s pat : String) : Bool :=
  listHasInfix pat.data s.data

/-! ## Steam-ID validation — `PlayerAPI._validate_steam_id` -/

/-- `PlayerAPI._validate_steam_id(steam_id)` of `repos/player.py`: returns the
`InvalidSteamIDError` it raises, or `none` when the ID passes.  The four checks
run in source order: falsy (empty) string, `isdigit`, length 17, prefix
`7656119`. -/
def validate_steam_id (steam_id : String) : Option SteamErr :=
  if steam_id = "" then
    Option.some (InvalidSteamIDError steam_id (Option.some "Steam ID cannot be empty"))
  else if pyIsdigit steam_id = false then
    Option.some (InvalidSteamIDError steam_id (Option.some "Steam ID must be numeric"))
  else if steam_id.length ≠ 17 then
    Option.some (InvalidSteamIDError steam_id (Option.some "Steam ID must be 17 digits long"))
  else if pyStartswith steam_id "7656119" = false then
    Option.some (InvalidSteamIDError steam_id (Option.some "Invalid Steam ID format"))
  else
    Option.none

/-- The `for steam_id in steam_ids: self._validate_steam_id(steam_id)` loop of
`get_player_summaries` / `get_player_bans`: the first failing ID's error. -/
def firstInvalid : List String → Option SteamErr
  | [] => Option.none
  | s :: rest =>
    match validate_steam_id s with
    | Option.some e => Option.some e
    | Option.none => firstInvalid rest

/-! ## JSON values and decoded payloads -/

/-- A decoded JSON value. -/
inductive Json where
  | null
  | bool (b : Bool)
  | num (n : Int)
  | str (s : String)
  | arr (xs : List Json)
  | obj (fields : List (String × Json))

/-- The decoded body of a successful exchange: a mapping from string keys to
JSON values (`response_data` in the endpoint methods). -/
abbrev JDict := List (String × Json)

/-- Python dict lookup `d[k]` / `k in d` on a decoded payload. -/
def jlookup (k : String) : JDict → Option Json
  | [] => Option.none
  | (k2, v) :: rest => if k2 = k then Option.some v else jlookup k rest

/-- Dict lookup inside a nested JSON value (`none` when the value is not an
object). -/
def Json.get? (j : Json) (k : String) : Option Json :=
  match j with
  | Json.obj fields => jlookup k fields
  | _ => Option.none

/-! ## pydantic models — `src/steam_py/models/player.py`

Only the required (non-`Optional`, no-default) fields decide whether
construction succeeds, and only those are embedded; the `Optional` fields
default to `None` and extra keys are ignored (`model_config extra="ignore"`),
so they cannot make validation fail and no claim reads them.  pydantic's
lenient coercions (e.g. numeric strings to ints) are not modelled; no claim
depends on them. -/

/-- `PlayerSummary` (required fields). `personastate` is a `PersonaState`
(0–6), `communityvisibilitystate` a `CommunityVisibilityState` (1–3). -/
structure PlayerSummary where
  steamid : String
  personaname : String
  profileurl : String
  avatar : String
  avatarmedium : String
  avatarfull : String
  personastate : Nat
  communityvisibilitystate : Nat
  deriving DecidableEq

/-- `Friend`: `steamid` and `relationship` are required, `friend_since` is
`Optional[int]`. -/
structure Friend where
  steamid : String
  relationship : String
  friend_since : Option Int
  deriving DecidableEq

/-- `PlayerBan` (all fields required). -/
structure PlayerBan where
  steamid : String
  community_banned : Bool
  vac_banned : Bool
  number_of_vac_bans : Int
  days_since_last_ban : Int
  number_of_game_bans : Int
  economy_ban : String
  deriving DecidableEq

/-- Extract a required string field. -/
def getStrField (d : List (String × Json)) (k : String) : Option String :=
  match jlookup k d with
  | Option.some (Json.str s) => Option.some s
  | _ => Option.none

/-- Extract a required int field. -/
def getIntField (d : List (String × Json)) (k : String) : Option Int :=
  match jlookup k d with
  | Option.some (Json.num n) => Option.some n
  | _ => Option.none

/-- Extract a required bool field. -/
def getBoolField (d : List (String × Json)) (k : String) : Option Bool :=
  match jlookup k d with
  | Option.some (Json.bool b) => Option.some b
  | _ => Option.none

/-- Extract an `IntEnum` field whose legal values are `lo`–`hi`. -/
def getEnumField (d : List (String × Json)) (k : String) (lo hi : Nat) : Option Nat :=
  match jlookup k d with
  | Option.some (Json.num (Int.ofNat n)) =>
    if lo ≤ n ∧ n ≤ hi then Option.some n else Option.none
  | _ => Option.none

/-- pydantic construction of one `PlayerSummary` from a JSON value. -/
def parsePlayerSummary (j : Json) : Option PlayerSummary :=
  match j with
  | Json.obj d => do
    let steamid ← getStrField d "steamid"
    let personaname ← getStrField d "personaname"
    let profileurl ← getStrField d "profileurl"
    let avatar ← getStrField d "avatar"
    let avatarmedium ← getStrField d "avatarmedium"
    let avatarfull ← getStrField d "avatarfull"
    let personastate ← getEnumField d "personastate" 0 6
    let cvs ← getEnumField d "communityvisibilitystate" 1 3
    pure ⟨steamid, personaname, profileurl, avatar, avatarmedium, avatarfull, personastate, cvs⟩
  | _ => Option.none

/-- pydantic construction of one `Friend` from a JSON value. -/
def parseFriend (j : Json) : Option Friend :=
  match j with
  | Json.obj d => do
    let steamid ← getStrField d "steamid"
    let relationship ← getStrField d "relationship"
    pure ⟨steamid, relationship, getIntField d "friend_since"⟩
  | _ => Option.none

/-- pydantic construction of one `PlayerBan` from a JSON value. -/
def parsePlayerBan (j : Json) : Option PlayerBan :=
  match j with
  | Json.obj d => do
    let steamid ← getStrField d "steamid"
    let cb ← getBoolField d "community_banned"
    let vb ← getBoolField d "vac_banned"
    let nv ← getIntField d "number_of_vac_bans"
    let ds ← getIntField d "days_since_last_ban"
    let ng ← getIntField d "number_of_game_bans"
    let eb ← getStrField d "economy_ban"
    pure ⟨steamid, cb, vb, nv, ds, ng, eb⟩
  | _ => Option.none

/-- `PlayerSummariesResponse(**r)`: `r` must be an object with a required
`players` list whose elements all validate. -/
def parsePlayerSummariesResponse (j : Json) : Option (List PlayerSummary) :=
  match j with
  | Json.obj d =>
    match jlookup "players" d with
    | Option.some (Json.arr xs) => xs.mapM parsePlayerSummary
    | _ => Option.none
  | _ => Option.none

/-- `FriendsListResponse(friends=...)`: the passed value must be a list whose
elements all validate (the source supplies `[]` when the key is absent). -/
def parseFriends (j : Json) : Option (List Friend) :=
  match j with
  | Json.arr xs => xs.mapM parseFriend
  | _ => Option.none

/-- `PlayerBansResponse(players=...)`: the passed value must be a list whose
elements all validate. -/
def parsePlayerBans (j : Json) : Option (List PlayerBan) :=
  match j with
  | Json.arr xs => xs.mapM parsePlayerBan
  | _ => Option.none

/-! ## The request-dispatch layer

`BaseAPI` (`repos/base.py`) is imported by every endpoint module but its file
is not among the sources; only its callers are.  The definitions in this
section are therefore modelled from the specification (§4.1, §4.3, §4.6), with
the transport abstracted as a behaviour `Nat → Outcome` giving the classified
outcome of each attempt.  The rate limiter only delays calls (spec §4.2) and
retry waiting is real time; neither affects any claim, so they are not
modelled. -/

/-- Which credential a call requires (`auth_type`). -/
inductive AuthType where
  | api_key
  | access_token
  | noAuth
  deriving DecidableEq

/-- HTTP verb of a call (`_request` / `_post_request` / `_put_request` /
`_delete_request`). -/
inductive HttpVerb where
  | get
  | post
  | put
  | delete
  deriving DecidableEq

/-- The client's credentials, supplied at construction and never mutated. -/
structure Credentials where
  api_key : Option String
  access_token : Option String
  deriving DecidableEq

/-- The classified outcome of one transport attempt: either a decoded payload
or a classified error (spec §4.4–§4.5: transport plus response classifier). -/
inductive Outcome where
  | payload (data : JDict)
  | failure (e : SteamErr)

/-- A transport behaviour: the classified outcome of the `i`-th attempt
(0-based) of one logical call. -/
abbrev Transport := Nat → Outcome

/-- Modelled from the spec: the Retry Policy (§4.3) retries only transient
outcomes — network-level failures and classified `ServiceUnavailableError` /
`RateLimitError` — and never other classified errors. -/
def isTransient (e : SteamErr) : Bool :=
  match e.kind with
  | ErrKind.network => true
  | ErrKind.serviceUnavailable => true
  | ErrKind.rateLimit => true
  | _ => false

/-- Whether an attempt outcome is a transient failure. -/
def transientFailure (o : Outcome) : Bool :=
  match o with
  | Outcome.payload _ => false
  | Outcome.failure e => isTransient e

/-- Modelled from the spec: the Auth Resolver (§4.1) of the missing
`BaseAPI._request`.  It fails fast, before any I/O, when the credential named
by `auth_type` is absent.  For a missing access token the exception raised
inside `_request` is a `ValueError` whose text contains
`"Access token is required"`: the handlers of every `FamilyAPI` method in
`repos/family.py` match exactly that.  For a missing API key the spec names
`AuthenticationError`. -/
def resolveAuth (auth : AuthType) (c : Credentials) : Except PyExc Unit :=
  match auth with
  | AuthType.api_key =>
    match c.api_key with
    | Option.some _ => Except.ok ()
    | Option.none => Except.error (PyExc.steam (AuthenticationError "Invalid or missing Steam API key"))
  | AuthType.access_token =>
    match c.access_token with
    | Option.some _ => Except.ok ()
    | Option.none => Except.error (PyExc.valueError "Access token is required for this endpoint")
  | AuthType.noAuth => Except.ok ()

/-- Modelled from the spec: the attempt loop of the Dispatcher (§4.6) with the
Retry Policy (§4.3).  `remaining` counts the retries still allowed
(`max_retries` on entry).  Each attempt invokes the transport once; a payload
returns immediately; a transient failure with retries remaining loops (the
backoff wait is real time and not modelled); any other failure — or an
exhausted budget — surfaces the last classified error unchanged.  The second
component is the number of transport invocations performed. -/
def runAttempts (t : Transport) (attempt remaining : Nat) : Except SteamErr JDict × Nat :=
  match t attempt with
  | Outcome.payload d => (Except.ok d, 1)
  | Outcome.failure e =>
    match remaining with
    | 0 => (Except.error e, 1)
    | Nat.succ r =>
      if isTransient e then
        let rest := runAttempts t (attempt + 1) r
        (rest.1, rest.2 + 1)
      else
        (Except.error e, 1)

/-- Modelled from the spec: `BaseAPI._request` — the Dispatcher's
`call(call_spec)` (§4.6): resolve the credential (failing fast with zero
transport invocations), then run up to `max_retries + 1` attempts.  `verb` and
`params` are carried for shape; the stubbed transport behaviour does not
depend on them. -/
def dispatch (auth : AuthType) (verb : HttpVerb) (params : List (String × String))
    (c : Credentials) (t : Transport) (max_retries : Nat) : Except PyExc JDict × Nat :=
  match resolveAuth auth c with
  | Except.error e => (Except.error e, 0)
  | Except.ok _ =>
    let r := runAttempts t 0 max_retries
    (r.1.mapError PyExc.steam, r.2)

/-! ## PlayerAPI — `src/steamy_py/repos/player.py`

Each endpoint method takes the client state (credentials, transport behaviour,
`max_retries`) and its own arguments, and returns the result together with the
number of transport invocations performed. -/

/-- The `Union[str, List[str]]` argument of `get_player_summaries` /
`get_player_bans`. -/
inductive SteamIdsArg where
  | one (s : String)
  | many (ids : List String)

/-- `if isinstance(steam_ids, str): steam_ids = [steam_ids]`. -/
def normalizeIds (a : SteamIdsArg) : List String :=
  match a with
  | SteamIdsArg.one s => [s]
  | SteamIdsArg.many ids => ids

/-- The `except Exception as e:` handler shared by the PlayerAPI methods:
`if isinstance(e, SteamAPIError): raise` (re-raise unchanged), otherwise
`raise SteamAPIError(pre + str(e))` (wrapped, with no status code). -/
def reraiseOrWrap (pre : String) (e : PyExc) : PyExc :=
  match e with
  | PyExc.steam err => PyExc.steam err
  | PyExc.valueError m => PyExc.steam (SteamAPIError (pre ++ m) Option.none)
  | PyExc.otherExc m => PyExc.steam (SteamAPIError (pre ++ m) Option.none)

/-- `PlayerAPI.get_player_summaries(steam_ids)`. -/
def get_player_summaries (c : Credentials) (t : Transport) (mr : Nat)
    (steam_ids : SteamIdsArg) : Except PyExc (List PlayerSummary) × Nat :=
  let ids := normalizeIds steam_ids
  if ids.length > 100 then
    (Except.error (PyExc.valueError "Maximum 100 Steam IDs allowed per request"), 0)
  else
    match firstInvalid ids with
    | Option.some e => (Except.error (PyExc.steam e), 0)
    | Option.none =>
      let params := [("steamids", String.intercalate "," ids)]
      match dispatch AuthType.api_key HttpVerb.get params c t mr with
      | (Except.error e, n) =>
        (Except.error (reraiseOrWrap "Failed to get player summaries: " e), n)
      | (Except.ok data, n) =>
        match jlookup "response" data with
        | Option.none =>
          -- raise SteamAPIError("Invalid response structure from Steam API"),
          -- caught by the method's own handler and re-raised unchanged
          (Except.error (PyExc.steam
            (SteamAPIError "Invalid response structure from Steam API" Option.none)), n)
        | Option.some r =>
          match parsePlayerSummariesResponse r with
          | Option.some players => (Except.ok players, n)
          | Option.none =>
            -- pydantic ValidationError, wrapped by the handler
            (Except.error (reraiseOrWrap "Failed to get player summaries: "
              (PyExc.valueError "validation error for PlayerSummariesResponse")), n)

/-- `FriendsListResponse(friends=response_data["friendslist"].get("friends", []))`:
`.get` on a non-dict raises `AttributeError`; a value that is not a valid
friends list raises pydantic's `ValidationError`. -/
def friendsFrom (fl : Json) : Except PyExc (List Friend) :=
  match fl with
  | Json.obj d =>
    let fj := match jlookup "friends" d with
      | Option.some v => v
      | Option.none => Json.arr []
    match parseFriends fj with
    | Option.some fr => Except.ok fr
    | Option.none => Except.error (PyExc.valueError "validation error for FriendsListResponse")
  | _ => Except.error (PyExc.otherExc "attribute error: object has no attribute get")

/-- `PlayerAPI.get_friends_list(steam_id, relationship="friend")`.  The
`except PrivateProfileError: raise` clause re-raises that error unchanged; the
generic handler re-raises any `SteamAPIError` unchanged and wraps the rest. -/
def get_friends_list (c : Credentials) (t : Transport) (mr : Nat)
    (steam_id relationship : String) : Except PyExc (List Friend) × Nat :=
  match validate_steam_id steam_id with
  | Option.some e => (Except.error (PyExc.steam e), 0)
  | Option.none =>
    let params := [("steamid", steam_id), ("relationship", relationship)]
    match dispatch AuthType.api_key HttpVerb.get params c t mr with
    | (Except.error e, n) =>
      (Except.error (reraiseOrWrap "Failed to get friends list: " e), n)
    | (Except.ok data, n) =>
      match jlookup "friendslist" data with
      | Option.none =>
        -- "This usually means the profile is private"
        (Except.error (PyExc.steam (PrivateProfileError steam_id Option.none)), n)
      | Option.some fl =>
        match friendsFrom fl with
        | Except.ok fr => (Except.ok fr, n)
        | Except.error e =>
          (Except.error (reraiseOrWrap "Failed to get friends list: " e), n)

/-- `PlayerAPI.get_player_bans(steam_ids)`. -/
def get_player_bans (c : Credentials) (t : Transport) (mr : Nat)
    (steam_ids : SteamIdsArg) : Except PyExc (List PlayerBan) × Nat :=
  let ids := normalizeIds steam_ids
  if ids.length > 100 then
    (Except.error (PyExc.valueError "Maximum 100 Steam IDs allowed per request"), 0)
  else
    match firstInvalid ids with
    | Option.some e => (Except.error (PyExc.steam e), 0)
    | Option.none =>
      let params := [("steamids", String.intercalate "," ids)]
      match dispatch AuthType.api_key HttpVerb.get params c t mr with
      | (Except.error e, n) =>
        (Except.error (reraiseOrWrap "Failed to get player bans: " e), n)
      | (Except.ok data, n) =>
        match jlookup "players" data with
        | Option.none =>
          (Except.error (PyExc.steam
            (SteamAPIError "Invalid response structure from Steam API" Option.none)), n)
        | Option.some pj =>
          match parsePlayerBans pj with
          | Option.some ps => (Except.ok ps, n)
          | Option.none =>
            (Except.error (reraiseOrWrap "Failed to get player bans: "
              (PyExc.valueError "validation error for PlayerBansResponse")), n)

/-- `PlayerAPI.get_player_summary(steam_id)`: calls
`get_player_summaries(steam_id)` with the bare string and returns
`summaries[0] if summaries else None`. -/
def get_player_summary (c : Credentials) (t : Transport) (mr : Nat)
    (steam_id : String) : Except PyExc (Option PlayerSummary) × Nat :=
  let r := get_player_summaries c t mr (SteamIdsArg.one steam_id)
  (r.1.map List.head?, r.2)

/-! ## FamilyAPI — `src/steamy_py/repos/family.py`

Every method calls the dispatch layer with `auth_type="access_token"` and
wraps failures with the same handler shape: an `except ValueError` clause that
turns a message containing `"Access token is required"` into
`AuthenticationError("Access token is required for Family API endpoints")` and
re-raises other `ValueError`s, then an `except Exception` clause that wraps
everything else (including classified `SteamAPIError`s) into a plain
`SteamAPIError(pre + str(e))`. -/

/-- The `except ValueError` / `except Exception` handler pair shared by all
FamilyAPI methods. -/
def familyHandler (pre : String) (e : PyExc) : PyExc :=
  match e with
  | PyExc.valueError m =>
    if strContains m "Access token is required" then
      PyExc.steam (AuthenticationError "Access token is required for Family API endpoints")
    else
      PyExc.valueError m
  | PyExc.otherExc m => PyExc.steam (SteamAPIError (pre ++ m) Option.none)
  | PyExc.steam err => PyExc.steam (SteamAPIError (pre ++ err.message) Option.none)

/-- Shared body of the FamilyAPI methods: dispatch with `access_token` auth,
return the raw decoded payload, route failures through `familyHandler`. -/
def familyCall (pre : String) (verb : HttpVerb) (params : List (String × String))
    (c : Credentials) (t : Transport) (mr : Nat) : Except PyExc JDict × Nat :=
  match dispatch AuthType.access_token verb params c t mr with
  | (Except.ok data, n) => (Except.ok data, n)
  | (Except.error e, n) => (Except.error (familyHandler pre e), n)

/-- `FamilyAPI.get_family_group(family_group_id=None, send_running_apps=False)`. -/
def get_family_group (c : Credentials) (t : Transport) (mr : Nat)
    (family_group_id : Option Int) (send_running_apps : Bool) : Except PyExc JDict × Nat :=
  let params :=
    (match family_group_id with
      | Option.some i => [("family_group_id", toString i)]
      | Option.none => []) ++
    (if send_running_apps then [("send_running_apps", "1")] else [])
  familyCall "Failed to get family group: " HttpVerb.get params c t mr

/-- `FamilyAPI.get_family_group_for_user(steamid=None)`. -/
def get_family_group_for_user (c : Credentials) (t : Transport) (mr : Nat)
    (steamid : Option String) : Except PyExc JDict × Nat :=
  let params :=
    match steamid with
    | Option.some s => [("steamid", s)]
    | Option.none => []
  familyCall "Failed to get family group for user: " HttpVerb.get params c t mr

/-- `FamilyAPI.get_playtime_summary(family_groupid=None)` (issued with
`http_method="POST"`). -/
def get_playtime_summary (c : Credentials) (t : Transport) (mr : Nat)
    (family_groupid : Option Int) : Except PyExc JDict × Nat :=
  let params :=
    match family_groupid with
    | Option.some i => [("family_groupid", toString i)]
    | Option.none => []
  familyCall "Failed to get playtime summary: " HttpVerb.post params c t mr

/-- `FamilyAPI.create_family_invite(steamid, family_groupid=None)` (a
`_post_request`). -/
def create_family_invite (c : Credentials) (t : Transport) (mr : Nat)
    (steamid : String) (family_groupid : Option Int) : Except PyExc JDict × Nat :=
  let params :=
    [("steamid", steamid)] ++
    (match family_groupid with
      | Option.some i => [("family_groupid", toString i)]
      | Option.none => [])
  familyCall "Failed to create family invite: " HttpVerb.post params c t mr

/-- `FamilyAPI.respond_to_family_invite(family_groupid, accept=True)` (a
`_post_request`). -/
def respond_to_family_invite (c : Credentials) (t : Transport) (mr : Nat)
    (family_groupid : Int) (accept : Bool) : Except PyExc JDict × Nat :=
  let params := [("family_groupid", toString family_groupid),
                 ("accept", if accept then "1" else "0")]
  familyCall "Failed to respond to family invite: " HttpVerb.post params c t mr

/-- `FamilyAPI.modify_family_settings(family_groupid, settings)` (a
`_put_request`); `params.update(settings)` is modelled as appending the
settings entries. -/
def modify_family_settings (c : Credentials) (t : Transport) (mr : Nat)
    (family_groupid : Int) (settings : List (String × String)) : Except PyExc JDict × Nat :=
  let params := [("family_groupid", toString family_groupid)] ++ settings
  familyCall "Failed to modify family settings: " HttpVerb.put params c t mr

/-- `FamilyAPI.remove_family_member(family_groupid, steamid)` (a
`_delete_request`). -/
def remove_family_member (c : Credentials) (t : Transport) (mr : Nat)
    (family_groupid : Int) (steamid : String) : Except PyExc JDict × Nat :=
  let params := [("family_groupid", toString family_groupid), ("steamid", steamid)]
  familyCall "Failed to remove family member: " HttpVerb.delete params c t mr

/-! ## Helper lemmas -/

lemma validate_steam_id_kind {s : String} {e : SteamErr}
    (h : validate_steam_id s = Option.some e) : e.kind = ErrKind.invalidSteamID := by
  unfold validate_steam_id at h
  split_ifs at h <;> cases Option.some.inj h <;> rfl

lemma firstInvalid_kind {ids : List String} {e : SteamErr}
    (h : firstInvalid ids = Option.some e) : e.kind = ErrKind.invalidSteamID := by
  induction ids with
  | nil => simp [firstInvalid] at h
  | cons s rest ih =>
    unfold firstInvalid at h
    rcases hv : validate_steam_id s with _ | e2
    all_goals rw [hv] at h
    · exact ih h
    · cases Option.some.inj h
      exact validate_steam_id_kind hv

lemma all_isDigit_eq_false_iff (l : List Char) :
    l.all Char.isDigit = false ↔ ∃ ch ∈ l, ch.isDigit = false := by
  induction l with
  | nil => simp
  | cons c cs ih => cases hc : c.isDigit <;> simp [hc, ih]

lemma isdigit_eq_false_iff (s : String) (hne : ¬ s = "") :
    pyIsdigit s = false ↔ ∃ ch ∈ s.data, ch.isDigit = false := by
  unfold pyIsdigit
  have hd : s.data.isEmpty = false := by
    rcases hl : s.data with _ | ⟨c, cs⟩
    · exfalso; apply hne; apply String.ext; rw [hl]
    · rfl
  rw [hd]
  simp [all_isDigit_eq_false_iff]

lemma dispatch_no_access_token {c : Credentials} (hc : c.access_token = Option.none)
    (verb : HttpVerb) (params : List (String × String)) (t : Transport) (mr : Nat) :
    dispatch AuthType.access_token verb params c t mr
      = (Except.error (PyExc.valueError "Access token is required for this endpoint"), 0) := by
  simp [dispatch, resolveAuth, hc]

lemma familyHandler_access_token_msg (pre : String) :
    familyHandler pre (PyExc.valueError "Access token is required for this endpoint")
      = PyExc.steam (AuthenticationError "Access token is required for Family API endpoints") := by
  have h : strContains "Access token is required for this endpoint"
      "Access token is required" = true := by decide
  simp [familyHandler, h]

lemma resolveAuth_api_key_ok {c : Credentials} {key : String}
    (hkey : c.api_key = Option.some key) :
    resolveAuth AuthType.api_key c = Except.ok () := by
  simp [resolveAuth, hkey]

lemma resolveAuth_access_token_ok {c : Credentials} {tok : String}
    (htok : c.access_token = Option.some tok) :
    resolveAuth AuthType.access_token c = Except.ok () := by
  simp [resolveAuth, htok]

lemma dispatch_first_payload {c : Credentials} {t : Transport} {p : JDict}
    (auth : AuthType) (hauth : resolveAuth auth c = Except.ok ())
    (ht : t 0 = Outcome.payload p)
    (verb : HttpVerb) (params : List (String × String)) (mr : Nat) :
    dispatch auth verb params c t mr = (Except.ok p, 1) := by
  unfold dispatch
  rw [hauth]
  unfold runAttempts
  rw [ht]
  rfl

lemma dispatch_nontransient {c : Credentials} {t : Transport} {e : SteamErr}
    (auth : AuthType) (hauth : resolveAuth auth c = Except.ok ())
    (htr : isTransient e = false) (ht : t 0 = Outcome.failure e)
    (verb : HttpVerb) (params : List (String × String)) (mr : Nat) :
    dispatch auth verb params c t mr = (Except.error (PyExc.steam e), 1) := by
  unfold dispatch
  rw [hauth]
  cases mr with
  | zero => unfold runAttempts; rw [ht]; rfl
  | succ r => unfold runAttempts; rw [ht]; simp [htr]; rfl

lemma runAttempts_payload_after {t : Transport} {p : JDict} :
    ∀ (k a r : Nat), k ≤ r → (∀ i, i < k → transientFailure (t (a + i)) = true) →
    t (a + k) = Outcome.payload p →
    runAttempts t a r = (Except.ok p, k + 1) := by
  intro k
  induction k with
  | zero =>
    intro a r _ _ hp
    rw [Nat.add_zero] at hp
    unfold runAttempts
    rw [hp]
  | succ k ih =>
    intro a r hkr htr hp
    obtain ⟨r', rfl⟩ : ∃ r', r = r' + 1 := ⟨r - 1, by omega⟩
    have h0 := htr 0 (Nat.succ_pos k)
    rw [Nat.add_zero] at h0
    unfold runAttempts
    rcases he : t a with d | e
    · rw [he] at h0; simp [transientFailure] at h0
    · rw [he] at h0
      have h0t : isTransient e = true := h0
      have hrec := ih (a + 1) r' (by omega)
        (fun i hi => by
          have hx := htr (i + 1) (by omega)
          rwa [show a + (i + 1) = a + 1 + i by omega] at hx)
        (by rw [show a + 1 + k = a + (k + 1) by omega]; exact hp)
      simp only [h0t, if_true, hrec]

lemma runAttempts_const_failure {e : SteamErr} (he : isTransient e = true)
    {t : Transport} (ht : ∀ i, t i = Outcome.failure e) :
    ∀ (r a : Nat), runAttempts t a r = (Except.error e, r + 1) := by
  intro r
  induction r with
  | zero => intro a; unfold runAttempts; rw [ht a]
  | succ r ih =>
    intro a
    unfold runAttempts
    rw [ht a]
    simp only [he, if_true]
    rw [ih (a + 1)]

/-! ## Shared witness data -/

/-- The AuthenticationError every FamilyAPI method surfaces when the access
token is absent. -/
def familyAuthErr : PyExc :=
  PyExc.steam (AuthenticationError "Access token is required for Family API endpoints")

/-- Witness credentials: an API key but no access token. -/
def wcreds : Credentials := Credentials.mk (Option.some "key") Option.none

/-- Witness transport: every attempt yields the empty payload. -/
def wtrans : Transport := fun _ => Outcome.payload []

/-- Witness transport for C3: one transient network failure, then success. -/
def wretryT : Transport := fun i => if i < 1 then
    Outcome.failure (NetworkError "connection refused")
  else
    Outcome.payload []

/-! ## The claims -/

/-- Claim C1: with no access token in the credentials, every FamilyAPI method
fails with AuthenticationError and performs zero transport invocations. -/
theorem family_requires_access_token (c : Credentials) (t : Transport) (mr : Nat)
    (hc : c.access_token = Option.none)
    (fgid : Option Int) (sra : Bool) (sid : Option String) (fg3 : Option Int)
    (sid2 : String) (fg4 : Option Int) (fg5 : Int) (acc : Bool)
    (fg6 : Int) (settings : List (String × String)) (fg7 : Int) (sid3 : String) :
    get_family_group c t mr fgid sra = (Except.error familyAuthErr, 0)
    ∧ get_family_group_for_user c t mr sid = (Except.error familyAuthErr, 0)
    ∧ get_playtime_summary c t mr fg3 = (Except.error familyAuthErr, 0)
    ∧ create_family_invite c t mr sid2 fg4 = (Except.error familyAuthErr, 0)
    ∧ respond_to_family_invite c t mr fg5 acc = (Except.error familyAuthErr, 0)
    ∧ modify_family_settings c t mr fg6 settings = (Except.error familyAuthErr, 0)
    ∧ remove_family_member c t mr fg7 sid3 = (Except.error familyAuthErr, 0) := by
  have hd := fun verb params => dispatch_no_access_token hc verb params t mr
  refine ⟨?_, ?_, ?_, ?_, ?_, ?_, ?_⟩ <;>
    simp [get_family_group, get_family_group_for_user, get_playtime_summary,
      create_family_invite, respond_to_family_invite, modify_family_settings,
      remove_family_member, familyCall, hd, familyHandler_access_token_msg, familyAuthErr]

/-- Witness for C1 at concrete inputs: credentials with an API key but no
access token make `get_family_group` fail with AuthenticationError after zero
transport invocations. -/
theorem family_requires_access_token_witness :
    wcreds.access_token = Option.none
    ∧ get_family_group wcreds wtrans 3 (Option.some 7) true
        = (Except.error familyAuthErr, 0) :=
  ⟨rfl, (family_requires_access_token wcreds wtrans 3 rfl (Option.some 7) true
    Option.none Option.none "s" Option.none 1 true 1 [] 1 "s").1⟩

/-- Claim C2: `_validate_steam_id(s)` raises exactly when `s` is empty,
contains a non-digit character, has length ≠ 17, or does not start with
`"7656119"`; whatever it raises is an InvalidSteamIDError; and the four
concrete examples behave as stated. -/
theorem validate_steam_id_correct (s : String) :
    ((validate_steam_id s).isSome = true ↔
      (s = "" ∨ (∃ ch ∈ s.data, ch.isDigit = false) ∨ s.length ≠ 17 ∨
        pyStartswith s "7656119" = false))
    ∧ (validate_steam_id s).all isInvalidSteamIDErr = true
    ∧ validate_steam_id "76561197960287930" = Option.none
    ∧ (validate_steam_id "123").isSome = true
    ∧ (validate_steam_id "abcdefghijklmnopq").isSome = true
    ∧ (validate_steam_id "").isSome = true := by
  refine ⟨?_, ?_, by decide, by decide, by decide, by decide⟩
  · constructor
    · intro h
      unfold validate_steam_id at h
      split_ifs at h with h1 h2 h3 h4
      · exact Or.inl h1
      · exact Or.inr (Or.inl ((isdigit_eq_false_iff s h1).mp h2))
      · exact Or.inr (Or.inr (Or.inl h3))
      · exact Or.inr (Or.inr (Or.inr h4))
      · simp at h
    · intro h
      unfold validate_steam_id
      split_ifs with h1 h2 h3 h4
      · rfl
      · rfl
      · rfl
      · rfl
      · exfalso
        rcases h with h | h | h | h
        · exact h1 h
        · have hdig : pyIsdigit s = true := by
            cases hx : pyIsdigit s
            · exact absurd hx h2
            · rfl
          rcases h with ⟨ch, hmem, hd⟩
          have := (List.all_eq_true.mp ((Bool.and_eq_true_iff.mp hdig).2)) ch hmem
          rw [hd] at this
          cases this
        · exact h3 h
        · have : pyStartswith s "7656119" = true := by
            cases hx : pyStartswith s "7656119"
            · exact absurd hx h4
            · rfl
          rw [h] at this
          cases this
  · unfold validate_steam_id
    split_ifs <;> rfl

/-- Claim C3: with a credential that resolves, a transport behaviour that
fails transiently exactly `k` times and then succeeds yields the success
payload after exactly `k + 1` invocations whenever `max_retries ≥ k`; and with
`max_retries = 2` and a transport that always returns a classified 503, the
call surfaces ServiceUnavailableError after exactly 3 attempts. -/
theorem retry_transient_semantics (auth : AuthType) (verb : HttpVerb)
    (params : List (String × String)) (c : Credentials) (t : Transport)
    (mr k : Nat) (p : JDict) (m : String)
    (hauth : resolveAuth auth c = Except.ok ()) :
    ((∀ i, i < k → transientFailure (t i) = true) → t k = Outcome.payload p → k ≤ mr →
      dispatch auth verb params c t mr = (Except.ok p, k + 1))
    ∧ ((∀ i, t i = Outcome.failure (ServiceUnavailableError m)) →
      dispatch auth verb params c t 2
        = (Except.error (PyExc.steam (ServiceUnavailableError m)), 3)) := by
  constructor
  · intro htr hp hk
    unfold dispatch
    rw [hauth]
    rw [runAttempts_payload_after k 0 mr hk
      (fun i hi => by rw [Nat.zero_add]; exact htr i hi)
      (by rw [Nat.zero_add]; exact hp)]
    rfl
  · intro ht
    unfold dispatch
    rw [hauth]
    rw [runAttempts_const_failure (e := ServiceUnavailableError m) rfl ht 2 0]
    rfl

/-- Witness for C3 at concrete inputs: a public (no-credential) call whose
transport fails transiently once and then succeeds returns the payload after
exactly 2 invocations. -/
theorem retry_transient_semantics_witness :
    resolveAuth AuthType.noAuth (Credentials.mk Option.none Option.none) = Except.ok ()
    ∧ dispatch AuthType.noAuth HttpVerb.get [] (Credentials.mk Option.none Option.none)
        wretryT 2 = (Except.ok [], 2) :=
  ⟨rfl,
    (retry_transient_semantics AuthType.noAuth HttpVerb.get []
      (Credentials.mk Option.none Option.none) wretryT 2 1 [] "x" rfl).1
      (fun i hi => by
        have : i = 0 := by omega
        rw [this]; rfl)
      rfl
      (by omega)⟩

/-- Claim C4 counterexample: at the concrete input — valid ID, API key
present, a 200 exchange whose decoded body is the empty object, so the
`"response"` key is absent — `get_player_summaries` raises the plain
`SteamAPIError("Invalid response structure from Steam API")`, which is not a
ResponseParsingError; the claim says ResponseParsingError is raised. -/
theorem response_structure_cex :
    (get_player_summaries wcreds wtrans 3 (SteamIdsArg.many ["76561197960287930"])).1
      = Except.error (PyExc.steam
          (SteamAPIError "Invalid response structure from Steam API" Option.none))
    ∧ isResponseParsingErr
        (SteamAPIError "Invalid response structure from Steam API" Option.none) = false :=
  ⟨rfl, rfl⟩

/-- Claim C4 (amended): on a 2xx response whose decoded body lacks the
`"response"` key, `get_player_summaries` raises the plain
`SteamAPIError("Invalid response structure from Steam API")` (status None),
not a ResponseParsingError and not a bare decode exception. -/
theorem response_structure_amended (c : Credentials) (key : String) (t : Transport)
    (mr : Nat) (ids : List String) (p : JDict)
    (hkey : c.api_key = Option.some key)
    (hlen : ¬ ids.length > 100)
    (hval : firstInvalid ids = Option.none)
    (ht : t 0 = Outcome.payload p)
    (hp : jlookup "response" p = Option.none) :
    get_player_summaries c t mr (SteamIdsArg.many ids)
      = (Except.error (PyExc.steam
          (SteamAPIError "Invalid response structure from Steam API" Option.none)), 1)
    ∧ PyExc.isTyped (PyExc.steam
        (SteamAPIError "Invalid response structure from Steam API" Option.none)) = true
    ∧ isResponseParsingErr
        (SteamAPIError "Invalid response structure from Steam API" Option.none) = false := by
  refine ⟨?_, rfl, rfl⟩
  have hd := dispatch_first_payload AuthType.api_key (resolveAuth_api_key_ok hkey) ht
  simp [get_player_summaries, normalizeIds, hlen, hval, hd, hp]

/-- Witness for the amended C4 at concrete inputs. -/
theorem response_structure_amended_witness :
    wcreds.api_key = Option.some "key"
    ∧ ¬ (["76561197960287930"] : List String).length > 100
    ∧ firstInvalid ["76561197960287930"] = Option.none
    ∧ wtrans 0 = Outcome.payload []
    ∧ jlookup "response" [] = Option.none
    ∧ get_player_summaries wcreds wtrans 3 (SteamIdsArg.many ["76561197960287930"])
      = (Except.error (PyExc.steam
          (SteamAPIError "Invalid response structure from Steam API" Option.none)), 1) :=
  ⟨rfl, by decide, rfl, rfl, rfl,
    (response_structure_amended wcreds "key" wtrans 3 ["76561197960287930"] []
      rfl (by decide) rfl rfl rfl).1⟩

/-- Claim C5 counterexample: a classified 401 AuthenticationError from the
dispatch layer surfaces from `FamilyAPI.get_family_group` wrapped into a
plain SteamAPIError whose `status_code` is None — the original 401 is lost,
contradicting the claim that the surfaced status_code is never replaced by
None. -/
theorem status_code_propagation_cex :
    get_family_group (Credentials.mk Option.none (Option.some "tok"))
        (fun _ => Outcome.failure (AuthenticationError "Invalid or missing Steam API key")) 3
        Option.none false
      = (Except.error (PyExc.steam (SteamAPIError
          "Failed to get family group: Invalid or missing Steam API key" Option.none)), 1)
    ∧ (SteamAPIError "Failed to get family group: Invalid or missing Steam API key"
        Option.none).status_code = Option.none
    ∧ (AuthenticationError "Invalid or missing Steam API key").status_code
        = Option.some 401 :=
  ⟨rfl, rfl, rfl⟩

/-- Claim C5 (amended): the PlayerAPI endpoint methods re-raise classified
(non-transient) errors unchanged, preserving their status_code; the FamilyAPI
methods instead wrap them into a plain SteamAPIError whose status_code is
None. -/
theorem status_code_propagation_amended (c : Credentials) (key tok : String)
    (t : Transport) (mr : Nat) (e : SteamErr) (rel : String)
    (hkey : c.api_key = Option.some key)
    (htok : c.access_token = Option.some tok)
    (htr : isTransient e = false)
    (ht : ∀ i, t i = Outcome.failure e) :
    get_player_summaries c t mr (SteamIdsArg.many ["76561197960287930"])
      = (Except.error (PyExc.steam e), 1)
    ∧ get_friends_list c t mr "76561197960287930" rel
      = (Except.error (PyExc.steam e), 1)
    ∧ get_player_bans c t mr (SteamIdsArg.many ["76561197960287930"])
      = (Except.error (PyExc.steam e), 1)
    ∧ get_family_group c t mr Option.none false
      = (Except.error (PyExc.steam (SteamAPIError
          ("Failed to get family group: " ++ e.message) Option.none)), 1)
    ∧ (SteamAPIError ("Failed to get family group: " ++ e.message)
        Option.none).status_code = Option.none := by
  have hdk := dispatch_nontransient AuthType.api_key (resolveAuth_api_key_ok hkey)
    htr (ht 0)
  have hdt := dispatch_nontransient AuthType.access_token
    (resolveAuth_access_token_ok htok) htr (ht 0)
  have hv : validate_steam_id "76561197960287930" = Option.none := rfl
  have hfv : firstInvalid ["76561197960287930"] = Option.none := rfl
  refine ⟨?_, ?_, ?_, ?_, rfl⟩
  · simp [get_player_summaries, normalizeIds, hfv, hdk, reraiseOrWrap]
  · simp [get_friends_list, hv, hdk, reraiseOrWrap]
  · simp [get_player_bans, normalizeIds, hfv, hdk, reraiseOrWrap]
  · simp [get_family_group, familyCall, hdt, familyHandler]

/-- Witness for the amended C5 at concrete inputs: a classified 401 from the
transport is re-raised unchanged by `get_player_summaries`. -/
theorem status_code_propagation_amended_witness :
    isTransient (AuthenticationError "Invalid or missing Steam API key") = false
    ∧ get_player_summaries (Credentials.mk (Option.some "key") (Option.some "tok"))
        (fun _ => Outcome.failure (AuthenticationError "Invalid or missing Steam API key")) 3
        (SteamIdsArg.many ["76561197960287930"])
      = (Except.error (PyExc.steam
          (AuthenticationError "Invalid or missing Steam API key")), 1) :=
  ⟨rfl,
    (status_code_propagation_amended
      (Credentials.mk (Option.some "key") (Option.some "tok")) "key" "tok"
      (fun _ => Outcome.failure (AuthenticationError "Invalid or missing Steam API key")) 3
      (AuthenticationError "Invalid or missing Steam API key") "friend"
      rfl rfl rfl (fun _ => rfl)).1⟩

/-- Claim C6 counterexample: `get_player_summaries` with 101 valid Steam IDs
fails with the bare built-in `ValueError("Maximum 100 Steam IDs allowed per
request")`, which is not a typed SteamAPIError instance — contradicting the
claim that every caller-visible failure is a typed error. -/
theorem over_limit_cex :
    (get_player_summaries wcreds wtrans 3
        (SteamIdsArg.many (List.replicate 101 "76561197960287930"))).1
      = Except.error (PyExc.valueError "Maximum 100 Steam IDs allowed per request")
    ∧ PyExc.isTyped (PyExc.valueError "Maximum 100 Steam IDs allowed per request")
        = false :=
  ⟨rfl, rfl⟩

/-- Claim C6 (amended): caller-visible failures are typed SteamAPIError
instances except for the over-100-IDs guard of `get_player_summaries` and
`get_player_bans`, which raises a bare built-in ValueError (carrying only a
string, before any transport invocation). -/
theorem over_limit_value_error (c : Credentials) (t : Transport) (mr : Nat)
    (ids : List String) (hlen : ids.length > 100) :
    get_player_summaries c t mr (SteamIdsArg.many ids)
      = (Except.error (PyExc.valueError "Maximum 100 Steam IDs allowed per request"), 0)
    ∧ get_player_bans c t mr (SteamIdsArg.many ids)
      = (Except.error (PyExc.valueError "Maximum 100 Steam IDs allowed per request"), 0)
    ∧ PyExc.isTyped (PyExc.valueError "Maximum 100 Steam IDs allowed per request")
        = false := by
  refine ⟨?_, ?_, rfl⟩
  · simp [get_player_summaries, normalizeIds, hlen]
  · simp [get_player_bans, normalizeIds, hlen]

/-- Witness for the amended C6 at concrete inputs: 101 IDs trigger the bare
ValueError with zero transport invocations. -/
theorem over_limit_value_error_witness :
    (List.replicate 101 "76561197960287930").length > 100
    ∧ get_player_bans wcreds wtrans 3
        (SteamIdsArg.many (List.replicate 101 "76561197960287930"))
      = (Except.error (PyExc.valueError "Maximum 100 Steam IDs allowed per request"), 0) :=
  ⟨by simp, (over_limit_value_error wcreds wtrans 3 _ (by simp)).2.1⟩

/-- Claim C7: an input that fails client-side Steam-ID validation makes
`get_friends_list`, `get_player_summaries` and `get_player_bans` raise the
InvalidSteamIDError locally, with zero transport invocations. -/
theorem local_validation_fail_fast (c : Credentials) (t : Transport) (mr : Nat)
    (rel s : String) (ids : List String) (e e2 : SteamErr) :
    (validate_steam_id s = Option.some e →
      get_friends_list c t mr s rel = (Except.error (PyExc.steam e), 0)
      ∧ e.kind = ErrKind.invalidSteamID)
    ∧ (¬ ids.length > 100 → firstInvalid ids = Option.some e2 →
      get_player_summaries c t mr (SteamIdsArg.many ids)
        = (Except.error (PyExc.steam e2), 0)
      ∧ get_player_bans c t mr (SteamIdsArg.many ids)
        = (Except.error (PyExc.steam e2), 0)
      ∧ e2.kind = ErrKind.invalidSteamID) := by
  constructor
  · intro hv
    exact ⟨by simp [get_friends_list, hv], validate_steam_id_kind hv⟩
  · intro hlen hfv
    exact ⟨by simp [get_player_summaries, normalizeIds, hlen, hfv],
      by simp [get_player_bans, normalizeIds, hlen, hfv],
      firstInvalid_kind hfv⟩

/-- Witness for C7 at the concrete invalid ID `"123"`. -/
theorem local_validation_fail_fast_witness :
    validate_steam_id "123"
      = Option.some (InvalidSteamIDError "123" (Option.some "Steam ID must be 17 digits long"))
    ∧ get_friends_list wcreds wtrans 3 "123" "friend"
      = (Except.error (PyExc.steam
          (InvalidSteamIDError "123" (Option.some "Steam ID must be 17 digits long"))), 0) :=
  ⟨by decide,
    ((local_validation_fail_fast wcreds wtrans 3 "friend" "123" []
      (InvalidSteamIDError "123" (Option.some "Steam ID must be 17 digits long"))
      (InvalidSteamIDError "123" (Option.some "Steam ID must be 17 digits long"))).1
      (by decide)).1⟩

/-- Claim C8: each error constructor stores the status code of the
classification table in its `status_code` field (and RateLimitError stores the
optional `retry_after`). -/
theorem error_status_codes (m sid aid : String) (ra : Option Nat) (om : Option String) :
    (AuthenticationError m).status_code = Option.some 401
    ∧ (RateLimitError m ra).status_code = Option.some 429
    ∧ (RateLimitError m ra).retry_after = ra
    ∧ (PlayerNotFoundError sid om).status_code = Option.some 404
    ∧ (GameNotFoundError aid om).status_code = Option.some 404
    ∧ (PrivateProfileError sid om).status_code = Option.some 403
    ∧ (ServiceUnavailableError m).status_code = Option.some 503 :=
  ⟨rfl, rfl, rfl, rfl, rfl, rfl, rfl⟩

/-- Claim C9: a 2xx GetFriendList exchange whose decoded body lacks the
`"friendslist"` key makes `get_friends_list` raise `PrivateProfileError`
carrying the requested steam_id — not a parsing or generic error. -/
theorem friends_missing_key_private (c : Credentials) (key : String) (t : Transport)
    (mr : Nat) (s rel : String) (p : JDict)
    (hkey : c.api_key = Option.some key)
    (hval : validate_steam_id s = Option.none)
    (ht : t 0 = Outcome.payload p)
    (hp : jlookup "friendslist" p = Option.none) :
    get_friends_list c t mr s rel
      = (Except.error (PyExc.steam (PrivateProfileError s Option.none)), 1)
    ∧ (PrivateProfileError s Option.none).steam_id = Option.some s
    ∧ (PrivateProfileError s Option.none).kind = ErrKind.privateProfile := by
  have hd := dispatch_first_payload AuthType.api_key (resolveAuth_api_key_ok hkey) ht
  exact ⟨by simp [get_friends_list, hval, hd, hp], rfl, rfl⟩

/-- Witness for C9 at concrete inputs: a 200 body `{}` yields
PrivateProfileError for the requested ID. -/
theorem friends_missing_key_private_witness :
    validate_steam_id "76561197960287930" = Option.none
    ∧ jlookup "friendslist" [] = Option.none
    ∧ get_friends_list wcreds wtrans 3 "76561197960287930" "friend"
      = (Except.error (PyExc.steam
          (PrivateProfileError "76561197960287930" Option.none)), 1) :=
  ⟨rfl, rfl,
    (friends_missing_key_private wcreds "key" wtrans 3 "76561197960287930" "friend" []
      rfl rfl rfl rfl).1⟩

/-- Claim C10: `get_player_summary(s)` is `get_player_summaries([s])` followed
by `summaries[0] if summaries else None`: the pair (result, invocation count)
equals that of the list call with `List.head?` mapped over the success value —
so it returns None exactly when the list call returns `[]`, returns the first
element otherwise, and fails with exactly the same errors. -/
theorem get_player_summary_refines (c : Credentials) (t : Transport) (mr : Nat)
    (s : String) :
    get_player_summary c t mr s
      = ((get_player_summaries c t mr (SteamIdsArg.many [s])).1.map List.head?,
         (get_player_summaries c t mr (SteamIdsArg.many [s])).2)
    ∧ ((get_player_summary c t mr s).1 = Except.ok Option.none ↔
        (get_player_summaries c t mr (SteamIdsArg.many [s])).1 = Except.ok [])
    ∧ (∀ e : PyExc, (get_player_summary c t mr s).1 = Except.error e ↔
        (get_player_summaries c t mr (SteamIdsArg.many [s])).1 = Except.error e) := by
  refine ⟨rfl, ?_, ?_⟩
  · rcases h : (get_player_summaries c t mr (SteamIdsArg.many [s])).1 with e | l
    · constructor
      · intro hx
        rw [show (get_player_summary c t mr s).1
            = (get_player_summaries c t mr (SteamIdsArg.many [s])).1.map List.head?
            from rfl, h] at hx
        cases hx
      · intro hx; cases hx
    · rw [show (get_player_summary c t mr s).1
          = (get_player_summaries c t mr (SteamIdsArg.many [s])).1.map List.head?
          from rfl, h]
      simp [Except.map]
  · intro e
    rw [show (get_player_summary c t mr s).1
        = (get_player_summaries c t mr (SteamIdsArg.many [s])).1.map List.head?
        from rfl]
    rcases h : (get_player_summaries c t mr (SteamIdsArg.many [s])).1 with e2 | l <;>
      simp [Except.map]

end SteamPy
